import Mathlib

/-!
Shallow embedding of `src/main.rs` of davidaburns/rusty-engine, a minimal
OpenGL demo (two triangles).  Every OpenGL / GLFW side effect is recorded as
an element of an explicit call trace (`GLCall`); the GL driver's replies
(generated handles, compile/link statuses, info logs) are passed in as
explicit parameters, since the driver is an external collaborator.  Rust
`f32` literals appear in the program only as literals copied verbatim into
GL calls (no floating-point arithmetic is ever performed on them), so they
are modelled by the exact rational values of the decimal literals.
`i32`-to-`u32` `as` casts are modelled by reduction modulo 2^32.
-/

/-- OpenGL enum and constant values, with their real numeric values. -/
def GL_VERTEX_SHADER : Nat := 0x8B31

/-- `gl::FRAGMENT_SHADER`. -/
def GL_FRAGMENT_SHADER : Nat := 0x8B30

/-- `gl::COMPILE_STATUS`. -/
def GL_COMPILE_STATUS : Nat := 0x8B81

/-- `gl::LINK_STATUS`. -/
def GL_LINK_STATUS : Nat := 0x8B82

/-- `gl::ARRAY_BUFFER`. -/
def GL_ARRAY_BUFFER : Nat := 0x8892

/-- `gl::ELEMENT_ARRAY_BUFFER`. -/
def GL_ELEMENT_ARRAY_BUFFER : Nat := 0x8893

/-- `gl::STATIC_DRAW`. -/
def GL_STATIC_DRAW : Nat := 0x88E4

/-- `gl::FLOAT`. -/
def GL_FLOAT : Nat := 0x1406

/-- `gl::UNSIGNED_INT`. -/
def GL_UNSIGNED_INT : Nat := 0x1405

/-- `gl::TRIANGLES`. -/
def GL_TRIANGLES : Nat := 0x0004

/-- `gl::COLOR_BUFFER_BIT`. -/
def GL_COLOR_BUFFER_BIT : Nat := 0x4000

/-- `gl::TRUE as GLint` (the value the compile/link status is compared with). -/
def GL_TRUE_INT : Int := 1

/-- `gl::FALSE as GLboolean`, as passed to `VertexAttribPointer`. -/
def GL_FALSE_BOOL : Nat := 0

/-- `mem::size_of::<GLfloat>()` on the target platform: 4 bytes. -/
def size_of_GLfloat : Nat := 4

/-- `mem::size_of::<i32>()`: 4 bytes (the element type of the index array). -/
def size_of_i32 : Nat := 4

/-- Rust's `x as u32` for `x : i32`: two's-complement reinterpretation,
i.e. reduction modulo 2^32 (negative values wrap). -/
def u32_wrap (x : Int) : Nat := (x % 4294967296).toNat

/-- One recorded OpenGL / GLFW side effect.  Constructor arguments mirror
the arguments the Rust code passes to the corresponding native call.
`printLine` records a `println!` of a fixed header followed by the decoded
info-log slice (`str::from_utf8(&info_log).unwrap()`), kept as raw bytes. -/
inductive GLCall where
  | createShader (shaderType : Nat)
  | shaderSource (shader : Nat) (src : String)
  | compileShader (shader : Nat)
  | getShaderiv (shader : Nat) (pname : Nat)
  | getShaderInfoLog (shader : Nat) (bufSize : Nat)
  | createProgram
  | attachShader (program shader : Nat)
  | linkProgram (program : Nat)
  | getProgramiv (program : Nat) (pname : Nat)
  | getProgramInfoLog (program : Nat) (bufSize : Nat)
  | deleteShader (shader : Nat)
  | printLine (header : String) (logBytes : List Nat)
  | genVertexArrays (n : Nat)
  | genBuffers (n : Nat)
  | bindVertexArray (vao : Nat)
  | bindBuffer (target handle : Nat)
  | bufferDataFloats (target : Nat) (sizeBytes : Nat) (data : List Rat) (usage : Nat)
  | bufferDataInts (target : Nat) (sizeBytes : Nat) (data : List Int) (usage : Nat)
  | vertexAttribPointer (index size ty normalized stride offset : Nat)
  | enableVertexAttribArray (index : Nat)
  | viewport (x y w h : Int)
  | clearColor (r g b a : Rat)
  | clear (mask : Nat)
  | useProgram (program : Nat)
  | drawElements (mode count ty offset : Nat)
  | swapBuffers
  | pollEvents
  deriving DecidableEq, Repr

/-- A Rust `Vec<u8>` as used for the info logs: `buf` is the bytes written
into the allocation (through a raw pointer), `len` is the vector's length.
`Vec::with_capacity(512)` allocates but leaves `len = 0`, and writing
through `as_mut_ptr` does not change `len`. -/
structure RustVec where
  buf : List Nat
  len : Nat
  deriving DecidableEq, Repr

/-- `Vec::with_capacity(c)`: empty vector (length 0), allocation only. -/
def vec_with_capacity (_c : Nat) : RustVec := ⟨[], 0⟩

/-- Writing `bytes` into the vector's allocation through `as_mut_ptr`:
the buffer memory changes but `len` is untouched. -/
def write_through_ptr (v : RustVec) (bytes : List Nat) : RustVec :=
  ⟨bytes, v.len⟩

/-- The slice `&v` / `v.as_slice()`: the first `len` bytes of the buffer. -/
def as_slice (v : RustVec) : List Nat := v.buf.take v.len

/-- What `gl::Get{Shader,Program}InfoLog(_, bufSize, null, ptr)` writes into
the caller's buffer: at most `bufSize - 1` log bytes plus a NUL terminator. -/
def info_log_bytes (bufSize : Nat) (driverLog : List Nat) : List Nat :=
  driverLog.take (bufSize - 1) ++ [0]

/-- The `GLShader` struct: shader source text and stage enum. -/
structure GLShader where
  shader_src : String
  shader_type : Nat
  deriving DecidableEq, Repr

/-- The driver's replies for one `GLShader::compile` call: the handle
returned by `CreateShader`, the status written by `GetShaderiv`, and the
log bytes `GetShaderInfoLog` would deliver. -/
structure ShaderDriver where
  handle : Nat
  compile_status : Int
  driver_log : List Nat
  deriving DecidableEq, Repr

/-- `GLShader::compile` after the `CString::new(...).unwrap()` step has
succeeded (see `GLShader.compile_outcome` for the full function including
that panic path): create, source, compile, query status; on failure fetch
the info log into a fresh `Vec::with_capacity(512)` and print it.  Returns
the shader handle in every case. -/
def GLShader.compile (s : GLShader) (d : ShaderDriver) : Nat × List GLCall :=
  let info_log := vec_with_capacity 512
  let shader := d.handle
  let head := [GLCall.createShader s.shader_type,
               GLCall.shaderSource shader s.shader_src,
               GLCall.compileShader shader,
               GLCall.getShaderiv shader GL_COMPILE_STATUS]
  if d.compile_status ≠ GL_TRUE_INT then
    let written := write_through_ptr info_log (info_log_bytes 512 d.driver_log)
    (shader, head ++ [GLCall.getShaderInfoLog shader 512,
                      GLCall.printLine "ERROR::SHADER::COMPILATION_FAILED" (as_slice written)])
  else
    (shader, head)

/-- The calls `GLShader::compile` performs before any failure branch. -/
def compile_head (s : GLShader) (d : ShaderDriver) : List GLCall :=
  [GLCall.createShader s.shader_type,
   GLCall.shaderSource d.handle s.shader_src,
   GLCall.compileShader d.handle,
   GLCall.getShaderiv d.handle GL_COMPILE_STATUS]

/-- Whether the UTF-8 byte encoding of `s` contains a NUL byte.  In UTF-8
a 0 byte occurs exactly where the character U+0000 occurs, so checking the
characters is equivalent to Rust's check of `s.as_bytes()`. -/
def has_nul_byte (s : String) : Bool :=
  s.data.any (fun c => c == Char.ofNat 0)

/-- `GLShader::compile` in full, including the
`CString::new(self.shader_src.as_bytes()).unwrap()` step: `CString::new`
returns `Err` exactly when the source bytes contain a NUL byte, and the
`unwrap` then panics, aborting the process — modelled as `none` (the
`CreateShader` call preceding the panic is irrelevant, as the process
dies).  Otherwise execution continues as `GLShader.compile`. -/
def GLShader.compile_outcome (s : GLShader) (d : ShaderDriver) :
    Option (Nat × List GLCall) :=
  if has_nul_byte s.shader_src then none
  else some (GLShader.compile s d)

/-- The `OpenGLContext` struct: the four native handles the application
keeps after GL setup. -/
structure OpenGLContext where
  shader_program : Nat
  vao : Nat
  vbo : Nat
  ebo : Nat
  deriving DecidableEq, Repr

/-- The driver's replies for one `link_shaders_vec` call. -/
structure ProgramDriver where
  handle : Nat
  link_status : Int
  driver_log : List Nat
  deriving DecidableEq, Repr

/-- `OpenGLContext::compile_shaders_vec`: compile each shader in order,
collecting the returned handles; each shader is paired with the driver's
replies for its compilation. -/
def OpenGLContext.compile_shaders_vec :
    List (GLShader × ShaderDriver) → List Nat × List GLCall
  | [] => ([], [])
  | (s, d) :: rest =>
    let r := s.compile d
    let rr := OpenGLContext.compile_shaders_vec rest
    (r.1 :: rr.1, r.2 ++ rr.2)

/-- `OpenGLContext::link_shaders_vec`: create a program, attach every
compiled shader, link, query status, on failure fetch and print the info
log, then delete every attached shader; return the program handle. -/
def OpenGLContext.link_shaders_vec (compiled_shaders : List Nat)
    (d : ProgramDriver) : Nat × List GLCall :=
  let info_log := vec_with_capacity 512
  let shader_program := d.handle
  let attach := compiled_shaders.map (GLCall.attachShader shader_program)
  let fail :=
    if d.link_status ≠ GL_TRUE_INT then
      let written := write_through_ptr info_log (info_log_bytes 512 d.driver_log)
      [GLCall.getProgramInfoLog shader_program 512,
       GLCall.printLine "ERROR::SHADER::PROGRAM::COMPILATION_FAILED" (as_slice written)]
    else []
  let del := compiled_shaders.map GLCall.deleteShader
  (shader_program,
   GLCall.createProgram :: attach
     ++ [GLCall.linkProgram shader_program,
         GLCall.getProgramiv shader_program GL_LINK_STATUS]
     ++ fail ++ del)

/-- Every call `link_shaders_vec` performs before the final delete loop. -/
def link_head (compiled_shaders : List Nat) (d : ProgramDriver) : List GLCall :=
  GLCall.createProgram :: compiled_shaders.map (GLCall.attachShader d.handle)
    ++ [GLCall.linkProgram d.handle, GLCall.getProgramiv d.handle GL_LINK_STATUS]
    ++ (if d.link_status ≠ GL_TRUE_INT then
          [GLCall.getProgramInfoLog d.handle 512,
           GLCall.printLine "ERROR::SHADER::PROGRAM::COMPILATION_FAILED" []]
        else [])

/-- `VERT_SHADER_SRC` (braces escaped; content is irrelevant to the claims). -/
def VERT_SHADER_SRC : String :=
  "\n    #version 330 core\n    layout (location = 0) in vec3 aPos;\n    void main() \x7b\n        gl_Position = vec4(aPos.x, aPos.y, aPos.z, 1.0);\n    \x7d\n"

/-- `FRAG_SHADER_SRC` (braces escaped; content is irrelevant to the claims). -/
def FRAG_SHADER_SRC : String :=
  "\n    #version 330 core\n    out vec4 FragColor;\n    void main() \x7b\n        FragColor = vec4(1.0f, 0.5f, 0.2f, 1.0f);\n    \x7d\n"

/-- The `verticies` array literal: 18 floats, two triangles of 3 vertices. -/
def verticies : List Rat :=
  [-0.9, -0.5, 0.0,
   -0.0, -0.5, 0.0,
   -0.45, 0.5, 0.0,
   0.0, -0.5, 0.0,
   0.9, -0.5, 0.0,
   0.45, 0.5, 0.0]

/-- The `indicies` array literal (element type `i32`). -/
def indicies : List Int := [0, 1, 3, 1, 2, 3]

/-- The driver's replies consumed by one `OpenGLContext::initialize` run:
replies for the two shader compiles, for the link, and the three handles
produced by `GenVertexArrays` / `GenBuffers`. -/
structure ContextDriver where
  vert : ShaderDriver
  frag : ShaderDriver
  prog : ProgramDriver
  vao_handle : Nat
  vbo_handle : Nat
  ebo_handle : Nat
  deriving DecidableEq, Repr

/-- The buffer-object setup calls of `OpenGLContext::initialize`, from
`BindVertexArray(vao)` to the final unbinds, in source order.  Note the
index-buffer byte size is computed with `size_of::<GLfloat>()`, exactly as
in the source. -/
def buffer_setup_calls (vao vbo ebo : Nat) : List GLCall :=
  [GLCall.bindVertexArray vao,
   GLCall.bindBuffer GL_ARRAY_BUFFER vbo,
   GLCall.bufferDataFloats GL_ARRAY_BUFFER (verticies.length * size_of_GLfloat)
     verticies GL_STATIC_DRAW,
   GLCall.bindBuffer GL_ELEMENT_ARRAY_BUFFER ebo,
   GLCall.bufferDataInts GL_ELEMENT_ARRAY_BUFFER (indicies.length * size_of_GLfloat)
     indicies GL_STATIC_DRAW,
   GLCall.vertexAttribPointer 0 3 GL_FLOAT GL_FALSE_BOOL (3 * size_of_GLfloat) 0,
   GLCall.enableVertexAttribArray 0,
   GLCall.bindBuffer GL_ARRAY_BUFFER 0,
   GLCall.bindVertexArray 0]

/-- `OpenGLContext::initialize` (named `ctx_init` here): build the two
`GLShader`s, compile them, link them, then generate and fill the vertex
array / vertex buffer / element buffer.  Returns the context struct and
the full call trace. -/
def OpenGLContext.ctx_init (d : ContextDriver) : OpenGLContext × List GLCall :=
  let shader_vec : List (GLShader × ShaderDriver) :=
    [(⟨VERT_SHADER_SRC, GL_VERTEX_SHADER⟩, d.vert),
     (⟨FRAG_SHADER_SRC, GL_FRAGMENT_SHADER⟩, d.frag)]
  let cres := OpenGLContext.compile_shaders_vec shader_vec
  let lres := OpenGLContext.link_shaders_vec cres.1 d.prog
  let vao := d.vao_handle
  let vbo := d.vbo_handle
  let ebo := d.ebo_handle
  ({ shader_program := lres.1, vao := vao, vbo := vbo, ebo := ebo },
   cres.2 ++ lres.2
     ++ [GLCall.genVertexArrays 1, GLCall.genBuffers 1, GLCall.genBuffers 1]
     ++ buffer_setup_calls vao vbo ebo)

/-- GLFW key, as matched by the event dispatcher. -/
inductive GlfwKey where
  | escape
  | other (code : Nat)
  deriving DecidableEq, Repr

/-- GLFW key action. -/
inductive GlfwAction where
  | press
  | release
  | repeated
  deriving DecidableEq, Repr

/-- A queued `glfw::WindowEvent`, restricted to the shape the dispatcher
matches on; all variants other than `FramebufferSize` and `Key` are folded
into `otherEvent`. -/
inductive WindowEvent where
  | framebufferSize (width height : Int)
  | key (k : GlfwKey) (scancode : Int) (action : GlfwAction) (mods : Nat)
  | otherEvent (tag : Nat)
  deriving DecidableEq, Repr

/-- The `OpenGLApplication` struct (window and GLFW handle are external;
the window's close flag is modelled as `should_close`). -/
structure OpenGLApplication where
  screen_width : Nat
  screen_height : Nat
  title : String
  should_close : Bool
  opengl_context : OpenGLContext
  deriving DecidableEq, Repr

/-- One arm of the `match event` in `process_window_events`:
`FramebufferSize(w, h)` issues `Viewport(0, 0, w, h)` and stores
`w as u32` / `h as u32`; `Key(Escape, _, Press, _)` sets the close flag;
everything else is a no-op. -/
def handle_event (app : OpenGLApplication) :
    WindowEvent → OpenGLApplication × List GLCall
  | WindowEvent.framebufferSize width height =>
    ({ app with screen_width := u32_wrap width, screen_height := u32_wrap height },
     [GLCall.viewport 0 0 width height])
  | WindowEvent.key GlfwKey.escape _ GlfwAction.press _ =>
    ({ app with should_close := true }, [])
  | _ => (app, [])

/-- `true` exactly on the events the dispatcher's two explicit match arms
capture. -/
def event_matched : WindowEvent → Bool
  | WindowEvent.framebufferSize _ _ => true
  | WindowEvent.key GlfwKey.escape _ GlfwAction.press _ => true
  | _ => false

/-- `OpenGLApplication::process_window_events`: drain the queued events in
FIFO order, dispatching each through the match. -/
def process_window_events (app : OpenGLApplication) :
    List WindowEvent → OpenGLApplication × List GLCall
  | [] => (app, [])
  | e :: es =>
    let r := handle_event app e
    let rest := process_window_events r.1 es
    (rest.1, r.2 ++ rest.2)

/-- The fixed render-and-present calls of one `run` loop iteration, after
event processing, in source order. -/
def render_calls (ctx : OpenGLContext) : List GLCall :=
  [GLCall.clearColor 0.2 0.3 0.3 1.0,
   GLCall.clear GL_COLOR_BUFFER_BIT,
   GLCall.useProgram ctx.shader_program,
   GLCall.bindVertexArray ctx.vao,
   GLCall.drawElements GL_TRIANGLES 6 GL_UNSIGNED_INT 0,
   GLCall.swapBuffers,
   GLCall.pollEvents]

/-- `OpenGLApplication::run`: `while !should_close` loop.  `queues` holds,
per iteration, the events that the poll of the previous iteration made
available; `fuel` bounds the number of iterations so the function is total
(the real loop may run forever). -/
def OpenGLApplication.run :
    Nat → OpenGLApplication → List (List WindowEvent) →
    OpenGLApplication × List GLCall
  | 0, app, _ => (app, [])
  | Nat.succ fuel, app, queues =>
    if app.should_close then (app, [])
    else
      let pr := process_window_events app queues.headI
      let rest := OpenGLApplication.run fuel pr.1 queues.tail
      (rest.1, pr.2 ++ render_calls pr.1.opengl_context ++ rest.2)

/-- A concrete application value used by closed witnesses and
counterexamples; its field values mirror `OpenGLApplication::initialize`
being called with the program's constants. -/
def test_app : OpenGLApplication :=
  { screen_width := 800, screen_height := 600, title := "OpenGL Learning",
    should_close := false,
    opengl_context := { shader_program := 1, vao := 2, vbo := 3, ebo := 4 } }

/-- Dispatching one event never changes the `opengl_context` field. -/
theorem handle_event_context (app : OpenGLApplication) (e : WindowEvent) :
    (handle_event app e).1.opengl_context = app.opengl_context := by
  cases e with
  | framebufferSize w h => rfl
  | key k sc a mods => cases k <;> cases a <;> rfl
  | otherEvent t => rfl

/-- Draining the event queue never changes the `opengl_context` field. -/
theorem process_window_events_context (events : List WindowEvent) :
    ∀ app : OpenGLApplication,
      (process_window_events app events).1.opengl_context = app.opengl_context := by
  induction events with
  | nil => intro app; rfl
  | cons e es ih =>
    intro app
    show (process_window_events (handle_event app e).1 es).1.opengl_context = _
    rw [ih, handle_event_context]

/-- C4 counterexample: the claim says `GLShader::compile` returns the
handle and never aborts for ANY source text, but for the concrete shader
whose source is the one-character string U+0000 the
`CString::new(...).unwrap()` at the top of `compile` panics and the
program aborts (outcome `none`), even though compilation status would have
been success. -/
theorem c4_counterexample :
    GLShader.compile_outcome ⟨"\x00", GL_VERTEX_SHADER⟩ ⟨5, 1, []⟩ = none
  ∧ has_nul_byte "\x00" = true := by
  refine ⟨?_, by decide⟩
  show (if has_nul_byte "\x00" then none else _) = none
  rw [if_pos (by decide)]

/-- C4 (amended): for every shader whose source text contains no NUL byte
(in particular both of the program's fixed shader sources) and every
driver reply, `GLShader::compile` does not abort and returns the created
native shader handle regardless of compile status; the failure branch
only appends the log fetch and a print to the call trace (the print
carrying the empty decoded slice, so the `from_utf8` unwrap cannot panic
either). -/
theorem c4_compile_fail_open (s : GLShader) (d : ShaderDriver)
    (hnul : has_nul_byte s.shader_src = false) :
    GLShader.compile_outcome s d = some (GLShader.compile s d)
  ∧ (GLShader.compile s d).1 = d.handle
  ∧ (d.compile_status = GL_TRUE_INT →
      (GLShader.compile s d).2 = compile_head s d)
  ∧ (d.compile_status ≠ GL_TRUE_INT →
      (GLShader.compile s d).2 =
        compile_head s d
          ++ [GLCall.getShaderInfoLog d.handle 512,
              GLCall.printLine "ERROR::SHADER::COMPILATION_FAILED" []]) := by
  refine ⟨?_, ?_, ?_, ?_⟩
  · unfold GLShader.compile_outcome
    rw [if_neg (by simp [hnul])]
  · unfold GLShader.compile
    split <;> rfl
  · intro hs
    unfold GLShader.compile
    simp [hs, compile_head]
  · intro hs
    unfold GLShader.compile
    simp [hs, compile_head, as_slice, write_through_ptr, vec_with_capacity]

/-- Witness for C4 at concrete inputs: the program's vertex shader source
is NUL-free, so a failed compile (status 0) does not abort, still returns
the driver's handle 5, and only adds the log fetch and print. -/
theorem c4_witness :
    has_nul_byte VERT_SHADER_SRC = false
  ∧ GLShader.compile_outcome ⟨VERT_SHADER_SRC, GL_VERTEX_SHADER⟩ ⟨5, 0, [101]⟩ =
      some (GLShader.compile ⟨VERT_SHADER_SRC, GL_VERTEX_SHADER⟩ ⟨5, 0, [101]⟩)
  ∧ (GLShader.compile ⟨VERT_SHADER_SRC, GL_VERTEX_SHADER⟩ ⟨5, 0, [101]⟩).1 = 5
  ∧ (GLShader.compile ⟨VERT_SHADER_SRC, GL_VERTEX_SHADER⟩ ⟨5, 0, [101]⟩).2 =
      compile_head ⟨VERT_SHADER_SRC, GL_VERTEX_SHADER⟩ ⟨5, 0, [101]⟩
        ++ [GLCall.getShaderInfoLog 5 512,
            GLCall.printLine "ERROR::SHADER::COMPILATION_FAILED" []] :=
  ⟨by decide,
   (c4_compile_fail_open ⟨VERT_SHADER_SRC, GL_VERTEX_SHADER⟩ ⟨5, 0, [101]⟩
      (by decide)).1,
   (c4_compile_fail_open ⟨VERT_SHADER_SRC, GL_VERTEX_SHADER⟩ ⟨5, 0, [101]⟩
      (by decide)).2.1,
   (c4_compile_fail_open ⟨VERT_SHADER_SRC, GL_VERTEX_SHADER⟩ ⟨5, 0, [101]⟩
      (by decide)).2.2.2 (by decide)⟩

/-- A concrete driver reply for a failed compile whose driver log is the
non-empty byte string "error". -/
def failing_shader_driver : ShaderDriver :=
  ⟨3, 0, [101, 114, 114, 111, 114]⟩

/-- A concrete driver reply for a failed link whose driver log is the
non-empty byte string "err". -/
def failing_program_driver : ProgramDriver :=
  ⟨9, 0, [101, 114, 114]⟩

/-- C5: the info log printed on compile or link failure is always the EMPTY
byte string, even when the driver supplies a non-empty log: `info_log` is
built with `Vec::with_capacity(512)` (length 0) and its length is never
set, so `str::from_utf8(&info_log)` decodes a zero-length slice.  Here a
failed compile with driver log "error" and a failed link with driver log
"err" both emit `printLine` with `[]` as the log bytes. -/
theorem c5_empty_log_bug :
    failing_shader_driver.driver_log ≠ []
  ∧ (GLShader.compile ⟨VERT_SHADER_SRC, GL_VERTEX_SHADER⟩ failing_shader_driver).2 =
      compile_head ⟨VERT_SHADER_SRC, GL_VERTEX_SHADER⟩ failing_shader_driver
        ++ [GLCall.getShaderInfoLog 3 512,
            GLCall.printLine "ERROR::SHADER::COMPILATION_FAILED" []]
  ∧ failing_program_driver.driver_log ≠ []
  ∧ (OpenGLContext.link_shaders_vec [3, 4] failing_program_driver).2 =
      [GLCall.createProgram,
       GLCall.attachShader 9 3, GLCall.attachShader 9 4,
       GLCall.linkProgram 9, GLCall.getProgramiv 9 GL_LINK_STATUS,
       GLCall.getProgramInfoLog 9 512,
       GLCall.printLine "ERROR::SHADER::PROGRAM::COMPILATION_FAILED" [],
       GLCall.deleteShader 3, GLCall.deleteShader 4] := by
  refine ⟨by decide, ?_, by decide, ?_⟩
  · rfl
  · rfl

/-- `deleteShader` never occurs among the pre-delete calls of
`link_shaders_vec`. -/
theorem deleteShader_not_mem_link_head (cs : List Nat) (d : ProgramDriver)
    (h : Nat) : GLCall.deleteShader h ∉ link_head cs d := by
  intro hmem
  unfold link_head at hmem
  split at hmem <;> simp at hmem

/-- Counting `deleteShader h` in the mapped delete loop counts `h` in the
input handle list. -/
theorem count_deleteShader_map (cs : List Nat) (h : Nat) :
    (cs.map GLCall.deleteShader).count (GLCall.deleteShader h) = cs.count h := by
  induction cs with
  | nil => rfl
  | cons c cs ih =>
    by_cases hc : c = h
    · subst hc
      simp [List.count_cons, ih]
    · simp [List.count_cons, ih, hc]

/-- C6: for every list of compiled shader handles and every driver reply,
`link_shaders_vec` returns the created program handle unconditionally, its
trace is the pre-delete calls followed by exactly one `deleteShader` per
attached handle (on the success and the failure path alike), no delete
occurs earlier, and each handle value is deleted as many times as it was
attached. -/
theorem c6_link_deletes_shaders (cs : List Nat) (d : ProgramDriver) :
    (OpenGLContext.link_shaders_vec cs d).1 = d.handle
  ∧ (OpenGLContext.link_shaders_vec cs d).2 =
      link_head cs d ++ cs.map GLCall.deleteShader
  ∧ (∀ h, GLCall.deleteShader h ∉ link_head cs d)
  ∧ (∀ h, (OpenGLContext.link_shaders_vec cs d).2.count (GLCall.deleteShader h)
          = cs.count h) := by
  have htrace : (OpenGLContext.link_shaders_vec cs d).2 =
      link_head cs d ++ cs.map GLCall.deleteShader := by
    unfold OpenGLContext.link_shaders_vec link_head
    split <;> simp [as_slice, write_through_ptr, vec_with_capacity]
  refine ⟨rfl, htrace, fun h => deleteShader_not_mem_link_head cs d h, fun h => ?_⟩
  rw [htrace, List.count_append, count_deleteShader_map,
      List.count_eq_zero.mpr (deleteShader_not_mem_link_head cs d h)]
  omega

/-- `true` exactly on `BufferData` upload calls. -/
def is_buffer_data : GLCall → Bool
  | GLCall.bufferDataFloats _ _ _ _ => true
  | GLCall.bufferDataInts _ _ _ _ => true
  | _ => false

/-- A shader compile trace contains no `BufferData` call. -/
theorem compile_filter_buffer_data (s : GLShader) (d : ShaderDriver) :
    (GLShader.compile s d).2.filter is_buffer_data = [] := by
  unfold GLShader.compile
  split <;> rfl

/-- A link trace contains no `BufferData` call. -/
theorem link_filter_buffer_data (cs : List Nat) (d : ProgramDriver) :
    (OpenGLContext.link_shaders_vec cs d).2.filter is_buffer_data = [] := by
  unfold OpenGLContext.link_shaders_vec
  split <;>
    simp [List.filter_append, List.filter_map, is_buffer_data, Function.comp]

/-- C3: for every driver reply, the only `BufferData` calls issued by
`OpenGLContext::initialize` are the vertex upload and the index upload, in
that order; the uploaded vertex data is exactly the 18-float literal array
(6 vertices of 3 floats) and the uploaded index data is exactly
[0, 1, 3, 1, 2, 3]. -/
theorem c3_uploaded_data (d : ContextDriver) :
    (OpenGLContext.ctx_init d).2.filter is_buffer_data =
      [GLCall.bufferDataFloats GL_ARRAY_BUFFER 72 verticies GL_STATIC_DRAW,
       GLCall.bufferDataInts GL_ELEMENT_ARRAY_BUFFER 24 indicies GL_STATIC_DRAW]
  ∧ verticies = [-0.9, -0.5, 0.0, -0.0, -0.5, 0.0, -0.45, 0.5, 0.0,
                 0.0, -0.5, 0.0, 0.9, -0.5, 0.0, 0.45, 0.5, 0.0]
  ∧ verticies.length = 18
  ∧ indicies = [0, 1, 3, 1, 2, 3] := by
  refine ⟨?_, rfl, rfl, rfl⟩
  show (List.filter is_buffer_data
    ((GLShader.compile ⟨VERT_SHADER_SRC, GL_VERTEX_SHADER⟩ d.vert).2
      ++ ((GLShader.compile ⟨FRAG_SHADER_SRC, GL_FRAGMENT_SHADER⟩ d.frag).2 ++ [])
      ++ (OpenGLContext.link_shaders_vec _ d.prog).2
      ++ [GLCall.genVertexArrays 1, GLCall.genBuffers 1, GLCall.genBuffers 1]
      ++ buffer_setup_calls d.vao_handle d.vbo_handle d.ebo_handle)) = _
  rw [List.filter_append, List.filter_append, List.filter_append,
      List.filter_append, compile_filter_buffer_data, List.append_nil,
      compile_filter_buffer_data, link_filter_buffer_data]
  rfl

/-- The calls of `OpenGLContext::initialize` that precede the buffer setup:
the two shader compiles, the link, and the three handle generations. -/
def ctx_init_head (d : ContextDriver) : List GLCall :=
  (OpenGLContext.compile_shaders_vec
      [(⟨VERT_SHADER_SRC, GL_VERTEX_SHADER⟩, d.vert),
       (⟨FRAG_SHADER_SRC, GL_FRAGMENT_SHADER⟩, d.frag)]).2
    ++ (OpenGLContext.link_shaders_vec
          (OpenGLContext.compile_shaders_vec
              [(⟨VERT_SHADER_SRC, GL_VERTEX_SHADER⟩, d.vert),
               (⟨FRAG_SHADER_SRC, GL_FRAGMENT_SHADER⟩, d.frag)]).1 d.prog).2
    ++ [GLCall.genVertexArrays 1, GLCall.genBuffers 1, GLCall.genBuffers 1]

/-- C7: for every driver reply, the buffer setup of
`OpenGLContext::initialize` is exactly this call sequence, in this order,
immediately after handle generation: bind the vertex array; bind the
vertex buffer and upload the 18-float vertex array (72 bytes) as static
data; bind the index buffer and upload the 6-element index array (24
bytes) as static data; describe attribute 0 as 3 floats with stride 12
bytes (3 floats) and offset 0 and enable it; then unbind the vertex
buffer and finally unbind the vertex array. -/
theorem c7_buffer_setup_sequence (d : ContextDriver) :
    (OpenGLContext.ctx_init d).2 =
      ctx_init_head d
        ++ [GLCall.bindVertexArray d.vao_handle,
            GLCall.bindBuffer GL_ARRAY_BUFFER d.vbo_handle,
            GLCall.bufferDataFloats GL_ARRAY_BUFFER 72 verticies GL_STATIC_DRAW,
            GLCall.bindBuffer GL_ELEMENT_ARRAY_BUFFER d.ebo_handle,
            GLCall.bufferDataInts GL_ELEMENT_ARRAY_BUFFER 24 indicies GL_STATIC_DRAW,
            GLCall.vertexAttribPointer 0 3 GL_FLOAT GL_FALSE_BOOL 12 0,
            GLCall.enableVertexAttribArray 0,
            GLCall.bindBuffer GL_ARRAY_BUFFER 0,
            GLCall.bindVertexArray 0] := by
  show _ ++ _ ++ _ ++ buffer_setup_calls d.vao_handle d.vbo_handle d.ebo_handle = _
  rw [ctx_init_head, List.append_assoc, List.append_assoc, List.append_assoc,
      List.append_assoc]
  rfl

/-- C8: for every driver reply, the index-buffer upload issued by
`OpenGLContext::initialize` passes a byte length computed as the index
count times `size_of::<GLfloat>()`, which equals 24 bytes — the byte count
the integer element size would also give — and, over arbitrary element
sizes, the two formulas agree exactly when the sizes are equal. -/
theorem c8_index_upload_size (d : ContextDriver) :
    GLCall.bufferDataInts GL_ELEMENT_ARRAY_BUFFER
        (indicies.length * size_of_GLfloat) indicies GL_STATIC_DRAW
      ∈ (OpenGLContext.ctx_init d).2
  ∧ indicies.length * size_of_GLfloat = 24
  ∧ indicies.length * size_of_i32 = 24
  ∧ size_of_GLfloat = size_of_i32
  ∧ (∀ fsz isz : Nat,
      indicies.length * fsz = indicies.length * isz ↔ fsz = isz) := by
  refine ⟨?_, rfl, rfl, rfl, ?_⟩
  · have hb : GLCall.bufferDataInts GL_ELEMENT_ARRAY_BUFFER
        (indicies.length * size_of_GLfloat) indicies GL_STATIC_DRAW
        ∈ buffer_setup_calls d.vao_handle d.vbo_handle d.ebo_handle := by
      simp [buffer_setup_calls]
    show _ ∈ _ ++ _ ++ _ ++ buffer_setup_calls d.vao_handle d.vbo_handle d.ebo_handle
    exact List.mem_append.mpr (Or.inr hb)
  · intro fsz isz
    have hlen : indicies.length = 6 := rfl
    rw [hlen]
    omega

/-- The `as u32` cast is the identity on in-range non-negative values. -/
theorem u32_wrap_of_nonneg (w : Int) (h0 : 0 ≤ w) (h1 : w < 4294967296) :
    ((u32_wrap w : Nat) : Int) = w := by
  unfold u32_wrap
  omega

/-- C1 counterexample: the claim says a `FramebufferSize(w, h)` event
stores exactly `(w, h)`, but at the concrete event
`FramebufferSize(-1, -1)` the stored width is 4294967295, not -1 (the
`as u32` cast wraps). -/
theorem c1_counterexample :
    ((handle_event test_app (WindowEvent.framebufferSize (-1) (-1))).1.screen_width : Int)
      = 4294967295
  ∧ ((4294967295 : Int) ≠ (-1 : Int)) := by
  refine ⟨?_, by decide⟩
  show ((u32_wrap (-1) : Nat) : Int) = 4294967295
  decide

/-- C1 (amended): a `FramebufferSize(w, h)` event issues exactly one
viewport call with bounds (0, 0, w, h) and stores `w as u32` / `h as u32`
(equal to exactly `(w, h)` whenever `w, h ≥ 0`, as for any in-range `i32`
values); a `Key(Escape, _, Press, _)` event sets `should_close` to true;
every other event (including any other key press) changes nothing. -/
theorem c1_event_dispatch :
    (∀ (app : OpenGLApplication) (w h : Int),
        handle_event app (WindowEvent.framebufferSize w h) =
          ({ app with screen_width := u32_wrap w, screen_height := u32_wrap h },
           [GLCall.viewport 0 0 w h]))
  ∧ (∀ (app : OpenGLApplication) (w h : Int),
        0 ≤ w → w < 2147483648 → 0 ≤ h → h < 2147483648 →
        ((handle_event app (WindowEvent.framebufferSize w h)).1.screen_width : Int) = w
      ∧ ((handle_event app (WindowEvent.framebufferSize w h)).1.screen_height : Int) = h)
  ∧ (∀ (app : OpenGLApplication) (sc : Int) (mods : Nat),
        handle_event app (WindowEvent.key GlfwKey.escape sc GlfwAction.press mods) =
          ({ app with should_close := true }, []))
  ∧ (∀ (app : OpenGLApplication) (e : WindowEvent),
        event_matched e = false → handle_event app e = (app, [])) := by
  refine ⟨fun app w h => rfl, ?_, fun app sc mods => rfl, ?_⟩
  · intro app w h hw0 hw1 hh0 hh1
    exact ⟨u32_wrap_of_nonneg w hw0 (by omega),
           u32_wrap_of_nonneg h hh0 (by omega)⟩
  · intro app e hm
    cases e with
    | framebufferSize w h => simp [event_matched] at hm
    | key k sc a mods =>
      cases k with
      | escape =>
        cases a with
        | press => simp [event_matched] at hm
        | release => rfl
        | repeated => rfl
      | other code => cases a <;> rfl
    | otherEvent t => rfl

/-- Witness for C1 at concrete inputs: resizing to (1024, 768) stores
exactly those dimensions, and a non-Escape key press is a no-op. -/
theorem c1_witness :
    ((handle_event test_app (WindowEvent.framebufferSize 1024 768)).1.screen_width : Int)
        = 1024
  ∧ ((handle_event test_app (WindowEvent.framebufferSize 1024 768)).1.screen_height : Int)
        = 768
  ∧ handle_event test_app (WindowEvent.key (GlfwKey.other 65) 0 GlfwAction.press 0)
        = (test_app, []) :=
  ⟨(c1_event_dispatch.2.1 test_app 1024 768 (by decide) (by decide) (by decide)
      (by decide)).1,
   (c1_event_dispatch.2.1 test_app 1024 768 (by decide) (by decide) (by decide)
      (by decide)).2,
   c1_event_dispatch.2.2.2 test_app _ rfl⟩

/-- C10: for every event with in-range non-negative `i32` dimensions the
stored width/height equal `(w, h)` exactly, while the concrete event
`FramebufferSize(-1, 7)` stores width 4294967295 = 2^32 - 1: the `as`
cast wraps modulo 2^32 instead of rejecting or clamping. -/
theorem c10_resize_cast :
    (∀ (app : OpenGLApplication) (w h : Int),
        0 ≤ w → w < 2147483648 → 0 ≤ h → h < 2147483648 →
        ((handle_event app (WindowEvent.framebufferSize w h)).1.screen_width : Int) = w
      ∧ ((handle_event app (WindowEvent.framebufferSize w h)).1.screen_height : Int) = h)
  ∧ (handle_event test_app (WindowEvent.framebufferSize (-1) 7)).1.screen_width
      = 4294967295 := by
  refine ⟨?_, ?_⟩
  · intro app w h hw0 hw1 hh0 hh1
    exact ⟨u32_wrap_of_nonneg w hw0 (by omega),
           u32_wrap_of_nonneg h hh0 (by omega)⟩
  · show u32_wrap (-1) = 4294967295
    decide

/-- Witness for C10 at a concrete input: resizing to (640, 480) stores
exactly (640, 480). -/
theorem c10_witness :
    ((handle_event test_app (WindowEvent.framebufferSize 640 480)).1.screen_width : Int)
        = 640
  ∧ ((handle_event test_app (WindowEvent.framebufferSize 640 480)).1.screen_height : Int)
        = 480 :=
  c10_resize_cast.1 test_app 640 480 (by decide) (by decide) (by decide) (by decide)

/-- The run loop never changes the `opengl_context` field. -/
theorem run_context (fuel : Nat) :
    ∀ (app : OpenGLApplication) (queues : List (List WindowEvent)),
      (OpenGLApplication.run fuel app queues).1.opengl_context
        = app.opengl_context := by
  induction fuel with
  | zero => intro app queues; rfl
  | succ n ih =>
    intro app queues
    unfold OpenGLApplication.run
    by_cases hc : app.should_close
    · simp [hc]
    · simp [hc, ih, process_window_events_context]

/-- C9: after initialization, the four handles of the OpenGL context are
never mutated again: dispatching any one event, draining any event queue,
and running the main loop for any number of iterations all leave the
`opengl_context` field (hence `shader_program`, `vao`, `vbo`, `ebo`)
unchanged. -/
theorem c9_context_immutable :
    (∀ (app : OpenGLApplication) (e : WindowEvent),
        (handle_event app e).1.opengl_context = app.opengl_context)
  ∧ (∀ (app : OpenGLApplication) (events : List WindowEvent),
        (process_window_events app events).1.opengl_context = app.opengl_context)
  ∧ (∀ (fuel : Nat) (app : OpenGLApplication) (queues : List (List WindowEvent)),
        (OpenGLApplication.run fuel app queues).1.opengl_context
          = app.opengl_context) :=
  ⟨handle_event_context,
   fun app events => process_window_events_context events app,
   fun fuel app queues => run_context fuel app queues⟩

/-- `true` exactly on `DrawElements` calls. -/
def is_draw_call : GLCall → Bool
  | GLCall.drawElements _ _ _ _ => true
  | _ => false

/-- Dispatching one event issues no draw call. -/
theorem handle_event_no_draw (app : OpenGLApplication) (e : WindowEvent) :
    (handle_event app e).2.countP is_draw_call = 0 := by
  cases e with
  | framebufferSize w h => rfl
  | key k sc a mods => cases k <;> cases a <;> rfl
  | otherEvent t => rfl

/-- Draining the event queue issues no draw call. -/
theorem process_window_events_no_draw (events : List WindowEvent) :
    ∀ app : OpenGLApplication,
      (process_window_events app events).2.countP is_draw_call = 0 := by
  induction events with
  | nil => intro app; rfl
  | cons e es ih =>
    intro app
    show ((handle_event app e).2
        ++ (process_window_events (handle_event app e).1 es).2).countP
          is_draw_call = 0
    rw [List.countP_append, handle_event_no_draw, ih]

/-- C2: while `should_close` is false, one iteration of the main loop
performs, in order: drain all pending events, clear to (0.2, 0.3, 0.3,
1.0), bind the program and the vertex array, draw 6 unsigned-int indices
from offset 0, swap the frame buffer, poll events — and then the loop
continues; when `should_close` is true the loop performs nothing; and
every iteration issues exactly one draw call. -/
theorem c2_main_loop :
    (∀ (fuel : Nat) (app : OpenGLApplication) (queues : List (List WindowEvent)),
        app.should_close = false →
        OpenGLApplication.run (fuel + 1) app queues =
          ((OpenGLApplication.run fuel
              (process_window_events app queues.headI).1 queues.tail).1,
           (process_window_events app queues.headI).2
             ++ [GLCall.clearColor 0.2 0.3 0.3 1.0,
                 GLCall.clear GL_COLOR_BUFFER_BIT,
                 GLCall.useProgram app.opengl_context.shader_program,
                 GLCall.bindVertexArray app.opengl_context.vao,
                 GLCall.drawElements GL_TRIANGLES 6 GL_UNSIGNED_INT 0,
                 GLCall.swapBuffers,
                 GLCall.pollEvents]
             ++ (OpenGLApplication.run fuel
                   (process_window_events app queues.headI).1 queues.tail).2))
  ∧ (∀ (fuel : Nat) (app : OpenGLApplication) (queues : List (List WindowEvent)),
        app.should_close = true →
        OpenGLApplication.run fuel app queues = (app, []))
  ∧ (∀ (app : OpenGLApplication) (q : List WindowEvent),
        ((process_window_events app q).2
          ++ render_calls app.opengl_context).countP is_draw_call = 1) := by
  refine ⟨?_, ?_, ?_⟩
  · intro fuel app queues hc
    show (if app.should_close = true then (app, []) else _) = _
    rw [if_neg (by simp [hc])]
    show ((OpenGLApplication.run fuel
            (process_window_events app queues.headI).1 queues.tail).1,
          (process_window_events app queues.headI).2
            ++ render_calls (process_window_events app queues.headI).1.opengl_context
            ++ (OpenGLApplication.run fuel
                  (process_window_events app queues.headI).1 queues.tail).2) = _
    rw [process_window_events_context]
    rfl
  · intro fuel app queues hc
    cases fuel with
    | zero => rfl
    | succ n =>
      show (if app.should_close = true then (app, []) else _) = _
      rw [if_pos hc]
  · intro app q
    rw [List.countP_append, process_window_events_no_draw]
    rfl

/-- Witness for C2 at a concrete input: one iteration from `test_app`
(whose close flag is false) with an empty event queue emits exactly the
render sequence, with exactly one draw call. -/
theorem c2_witness :
    test_app.should_close = false
  ∧ OpenGLApplication.run 1 test_app [] =
      (test_app,
       [GLCall.clearColor 0.2 0.3 0.3 1.0,
        GLCall.clear GL_COLOR_BUFFER_BIT,
        GLCall.useProgram 1,
        GLCall.bindVertexArray 2,
        GLCall.drawElements GL_TRIANGLES 6 GL_UNSIGNED_INT 0,
        GLCall.swapBuffers,
        GLCall.pollEvents])
  ∧ ((process_window_events test_app []).2
      ++ render_calls test_app.opengl_context).countP is_draw_call = 1 := by
  refine ⟨rfl, ?_, c2_main_loop.2.2 test_app []⟩
  have h := c2_main_loop.1 0 test_app [] rfl
  simpa [process_window_events, OpenGLApplication.run, test_app] using h

/-- Witness for C6 at a concrete input: linking handles [3, 4] with a
successful link (status 1, program handle 9) returns 9 and deletes both
shaders exactly once, after linking. -/
theorem c6_witness :
    (OpenGLContext.link_shaders_vec [3, 4] ⟨9, 1, []⟩).1 = 9
  ∧ (OpenGLContext.link_shaders_vec [3, 4] ⟨9, 1, []⟩).2 =
      link_head [3, 4] ⟨9, 1, []⟩
        ++ [GLCall.deleteShader 3, GLCall.deleteShader 4]
  ∧ GLCall.deleteShader 3 ∉ link_head [3, 4] ⟨9, 1, []⟩
  ∧ (OpenGLContext.link_shaders_vec [3, 4] ⟨9, 1, []⟩).2.count
      (GLCall.deleteShader 3) = 1 :=
  ⟨(c6_link_deletes_shaders [3, 4] ⟨9, 1, []⟩).1,
   (c6_link_deletes_shaders [3, 4] ⟨9, 1, []⟩).2.1,
   (c6_link_deletes_shaders [3, 4] ⟨9, 1, []⟩).2.2.1 3,
   (c6_link_deletes_shaders [3, 4] ⟨9, 1, []⟩).2.2.2 3⟩
